import Mathlib

/-!
Verification of the `cubio` raster-cube library against its specification.

The Python source is shallowly embedded: Python floats are modelled as
exact rationals (`ℚ`), `np.nan` by a dedicated constructor of `PyVal`,
fallible code by `Except`, and mutation by explicit state passing.
Every definition is translated from the source files named in its doc
comment.
-/

namespace Cubio

/-! ## Geotransform (src/cubio/geotransform.py) -/

/-- `PointModel`: an ordered pair (pydantic model with `x`, `y` floats). -/
structure PointModel where
  x : ℚ
  y : ℚ
  deriving Repr, DecidableEq

/-- `GeotransformModel`: the six-parameter affine geotransform.  The
pydantic model declares only the field types; the source defines no
extra validator, so construction is just record formation. -/
structure GeotransformModel where
  upperleft : PointModel
  xres : ℚ
  row_rotation : ℚ
  yres : ℚ
  col_rotation : ℚ
  deriving Repr, DecidableEq

/-- The determinant `xres*yres - col_rotation*row_rotation`, called
`_scaler` inside `map_to_pixel`. -/
def GeotransformModel.scaler (g : GeotransformModel) : ℚ :=
  g.xres * g.yres - g.col_rotation * g.row_rotation

/-- Pydantic construction of a `GeotransformModel` from its six raw
parameters.  The class body contains no validator beyond the field type
annotations, so validation always succeeds; the `Except` layer records
that pydantic construction is in principle fallible. -/
def GeotransformModel.construct (ulx uly xres rrot yres crot : ℚ) :
    Except String GeotransformModel :=
  .ok ⟨⟨ulx, uly⟩, xres, rrot, yres, crot⟩

/-- The `convention` literal of `pixel_to_map` (`"globe"` or `"hemi"`). -/
inductive Convention where
  | globe
  | hemi
  deriving Repr, DecidableEq

/-- `GeotransformModel.pixel_to_map`: pixel coordinates to map
coordinates; in the `"globe"` convention a negative x result gets 360
added. -/
def GeotransformModel.pixel_to_map (g : GeotransformModel)
    (xpixel ypixel : ℚ) (convention : Convention := .hemi) : PointModel :=
  let xmap := g.upperleft.x + xpixel * g.xres + ypixel * g.row_rotation
  let ymap := g.upperleft.y + ypixel * g.yres + xpixel * g.col_rotation
  let xmap :=
    match convention with
    | .globe => if xmap < 0 then xmap + 360 else xmap
    | .hemi => xmap
  ⟨xmap, ymap⟩

/-- Errors a `map_to_pixel` call can raise.  `GeographicBoundsError`
carries the offending map coordinate and the violated bound, exactly the
two values interpolated into the exception message; `zeroDivision`
models Python's `ZeroDivisionError` raised when a division in the body
has divisor `0.0`. -/
inductive GeoError where
  | geographicBoundsX (offending : ℚ) (bound : ℚ)
  | geographicBoundsY (offending : ℚ) (bound : ℚ)
  | zeroDivision
  deriving Repr, DecidableEq

/-- `GeotransformModel.map_to_pixel`: map coordinates to pixel
coordinates.  The body evaluates `xpixel` first (its expression divides
by `self.xres` and by `_scaler`), then `ypixel` (divides by `self.yres`
and `_scaler`); in Python each such division raises `ZeroDivisionError`
when its divisor is zero, modelled here by the guards, evaluated in the
order the interpreter reaches the divisions.  A negative `xpixel`, then
a negative `ypixel`, raises `GeographicBoundsError`. -/
def GeotransformModel.map_to_pixel (g : GeotransformModel)
    (xmap ymap : ℚ) : Except GeoError PointModel :=
  let _scaler := g.xres * g.yres - g.col_rotation * g.row_rotation
  if g.xres = 0 then .error .zeroDivision
  else if _scaler = 0 then .error .zeroDivision
  else
    let xpixel :=
      (g.yres * xmap - g.upperleft.x * g.yres
        - (g.row_rotation * g.yres / g.xres) * ymap
        + g.row_rotation * g.upperleft.y) / _scaler
    if g.yres = 0 then .error .zeroDivision
    else
      let ypixel :=
        (g.xres * ymap - g.upperleft.y * g.xres
          - (g.col_rotation * g.xres / g.yres) * xmap
          + g.col_rotation * g.upperleft.x) / _scaler
      if xpixel < 0 then .error (.geographicBoundsX xmap g.upperleft.x)
      else if ypixel < 0 then .error (.geographicBoundsY ymap g.upperleft.y)
      else .ok ⟨xpixel, ypixel⟩

/-- The `xpixel` value `map_to_pixel` computes (meaningful when
`xres ≠ 0` and the determinant is nonzero). -/
def GeotransformModel.xpixelOf (g : GeotransformModel) (xmap ymap : ℚ) : ℚ :=
  (g.yres * xmap - g.upperleft.x * g.yres
    - (g.row_rotation * g.yres / g.xres) * ymap
    + g.row_rotation * g.upperleft.y) / g.scaler

/-- The `ypixel` value `map_to_pixel` computes (meaningful when
`yres ≠ 0` and the determinant is nonzero). -/
def GeotransformModel.ypixelOf (g : GeotransformModel) (xmap ymap : ℚ) : ℚ :=
  (g.xres * ymap - g.upperleft.y * g.xres
    - (g.col_rotation * g.xres / g.yres) * xmap
    + g.col_rotation * g.upperleft.x) / g.scaler

/-! ## Cube size and layout tools (src/cubio/cube_size_tools.py) -/

/-- `CubeArrayFormat`: the three physical storage orders
(`Literal["BSQ", "BIL", "BIP"]` in src/cubio/types.py). -/
inductive CubeArrayFormat where
  | BIL
  | BIP
  | BSQ
  deriving Repr, DecidableEq

/-- `CubeSize`: canonical, layout-independent shape. -/
structure CubeSize where
  nrows : ℕ
  ncolumns : ℕ
  nbands : ℕ
  deriving Repr, DecidableEq

/-- A rank-3 array: a physical shape together with total sample data
indexed by the three physical axis positions. -/
structure Arr3 (α : Type) where
  d0 : ℕ
  d1 : ℕ
  d2 : ℕ
  data : ℕ → ℕ → ℕ → α

theorem Arr3.ext_thm {α : Type} {a b : Arr3 α} (h0 : a.d0 = b.d0)
    (h1 : a.d1 = b.d1) (h2 : a.d2 = b.d2)
    (hd : ∀ i j k, a.data i j k = b.data i j k) : a = b := by
  cases a
  cases b
  simp only at h0 h1 h2 hd
  subst h0 h1 h2
  congr 1
  funext i j k
  exact hd i j k

/-- `get_cube_size`: reads a `CubeSize` off a physical shape under a
given interleave (`BIL`: lines, bands, samples; `BIP`: lines, samples,
bands; `BSQ`: bands, samples, lines — axis orders exactly as unpacked in
the source). -/
def get_cube_size {α : Type} (arr : Arr3 α) (format : CubeArrayFormat) :
    CubeSize :=
  match format with
  | .BIL => ⟨arr.d0, arr.d2, arr.d1⟩
  | .BIP => ⟨arr.d0, arr.d1, arr.d2⟩
  | .BSQ => ⟨arr.d2, arr.d1, arr.d0⟩

/-- The destination argument of `transpose_cube`:
`CubeArrayFormat | Literal["RASTERIO"]`. -/
inductive TransposeDst where
  | BIL
  | BIP
  | BSQ
  | RASTERIO
  deriving Repr, DecidableEq

/-- The coercion from a storage order to a transpose destination. -/
def CubeArrayFormat.toDst : CubeArrayFormat → TransposeDst
  | .BIL => .BIL
  | .BIP => .BIP
  | .BSQ => .BSQ

/-- `arr.transpose(dims[0], dims[2], dims[1])`: xarray reorders the
physical axes into the named order, here (axis 0, axis 2, axis 1). -/
def Arr3.perm021 {α : Type} (a : Arr3 α) : Arr3 α :=
  ⟨a.d0, a.d2, a.d1, fun i j k => a.data i k j⟩

/-- `arr.transpose(dims[1], dims[2], dims[0])`: new axis order
(axis 1, axis 2, axis 0). -/
def Arr3.perm120 {α : Type} (a : Arr3 α) : Arr3 α :=
  ⟨a.d1, a.d2, a.d0, fun i j k => a.data k i j⟩

/-- `arr.transpose(dims[2], dims[0], dims[1])`: new axis order
(axis 2, axis 0, axis 1). -/
def Arr3.perm201 {α : Type} (a : Arr3 α) : Arr3 α :=
  ⟨a.d2, a.d0, a.d1, fun i j k => a.data j k i⟩

/-- `arr.transpose(dims[2], dims[1], dims[0])`: new axis order
(axis 2, axis 1, axis 0). -/
def Arr3.perm210 {α : Type} (a : Arr3 α) : Arr3 α :=
  ⟨a.d2, a.d1, a.d0, fun i j k => a.data k j i⟩

/-- `arr.transpose(dims[1], dims[0], dims[2])`: new axis order
(axis 1, axis 0, axis 2). -/
def Arr3.perm102 {α : Type} (a : Arr3 α) : Arr3 α :=
  ⟨a.d1, a.d0, a.d2, fun i j k => a.data j i k⟩

/-- `transpose_cube`: the hand-enumerated source-to-destination table of
xarray transposes from the source, case for case. -/
def transpose_cube {α : Type} (src : CubeArrayFormat) (dst : TransposeDst)
    (arr : Arr3 α) : Arr3 α :=
  match src, dst with
  | .BIL, .BIL => arr
  | .BIL, .BIP => arr.perm021
  | .BIL, .BSQ => arr.perm120
  | .BIL, TransposeDst.RASTERIO => arr.perm102
  | .BIP, .BIL => arr.perm021
  | .BIP, .BIP => arr
  | .BIP, .BSQ => arr.perm210
  | .BIP, TransposeDst.RASTERIO => arr.perm201
  | .BSQ, .BIL => arr.perm201
  | .BSQ, .BIP => arr.perm210
  | .BSQ, .BSQ => arr
  | .BSQ, TransposeDst.RASTERIO => arr.perm021

/-! ## CubeMask (src/cubio/cube_mask.py) -/

/-- `CubeMask`: compound visibility mask.  `_xymask` is a boolean grid
indexed (row, column), `_zmask` a boolean vector indexed by band; `true`
means excluded; either may be unset (`None`).  The source's boolean
dtype and rank checks are enforced here by the types; the xarray
dimension names are bookkeeping not modelled. -/
structure CubeMask where
  shape : CubeSize
  _xymask : Option (ℕ → ℕ → Bool)
  _zmask : Option (ℕ → Bool)

/-- `CubeMask.transparent`: all-false spatial grid and spectral vector. -/
def CubeMask.transparent (shape : CubeSize) : CubeMask :=
  ⟨shape, some fun _ _ => false, some fun _ => false⟩

/-- `CubeMask.add_to_xymask`: raises if the spatial mask is unset,
otherwise OR-merges the new mask into it (`self._xymask | new_mask`). -/
def CubeMask.add_to_xymask (m : CubeMask) (new_mask : ℕ → ℕ → Bool) :
    Except String CubeMask :=
  match m._xymask with
  | none => .error "XYMask not set yet."
  | some xy =>
      .ok { m with _xymask := some fun i j => xy i j || new_mask i j }

/-- `CubeMask.add_to_zmask`: raises if the spectral mask is unset,
otherwise OR-merges the new mask into it (`self._zmask | new_mask`). -/
def CubeMask.add_to_zmask (m : CubeMask) (new_mask : ℕ → Bool) :
    Except String CubeMask :=
  match m._zmask with
  | none => .error "ZMask not set yet."
  | some z =>
      .ok { m with _zmask := some fun k => z k || new_mask k }

/-! ## Masked cube reads (src/cubio/cube_data/masking.py) -/

/-- A Python float value: an exact number or IEEE `nan` (`np.nan`). -/
inductive PyVal where
  | num (q : ℚ)
  | nan
  deriving Repr, DecidableEq

/-- The labeled semantic-axis view of a cube buffer: samples indexed by
(row, column, band), with the canonical shape attached. -/
structure LabeledCube where
  shape : CubeSize
  data : ℕ → ℕ → ℕ → PyVal

/-- The `CubeData` state the masking layer sees: the assigned buffer
(`self._array`, possibly unset), the declared nodata sentinel, and the
lazily materialized `self._mask`. -/
structure CubeDataState where
  _array : Option LabeledCube
  nodata : PyVal
  _mask : Option CubeMask

/-- The `mask` property of `MaskingMixIn`: returns `self._mask`,
materializing a transparent mask of the cube's shape on first access
(which requires the buffer to be set, since the shape is read off it). -/
def CubeDataState.mask (c : CubeDataState) : Except String CubeMask :=
  match c._mask with
  | some m => .ok m
  | none =>
      match c._array with
      | none => .error "Array is not set."
      | some a => .ok (CubeMask.transparent a.shape)

/-- The `array` property of `MaskingMixIn`: validate the buffer is set
(`array_is_set` in `CubeDataCore.array`), then `_apply_mask()` with
`which="both"`, `drop=False`: keep each sample where
`~xymask & ~zmask` holds (xarray broadcasts the (row,column) grid and
the (band,) vector over the full cube) and fill `np.nan` elsewhere. -/
def CubeDataState.array (c : CubeDataState) : Except String LabeledCube :=
  match c._array with
  | none => .error "Array is not set."
  | some a =>
      match c.mask with
      | .error e => .error e
      | .ok m =>
          match m._xymask with
          | none => .error "XY Mask not set yet."
          | some xy =>
              match m._zmask with
              | none => .error "Z Mask not set yet."
              | some z =>
                  .ok ⟨a.shape, fun yi xi zi =>
                    if !xy yi xi && !z zi then a.data yi xi zi
                    else PyVal.nan⟩

/-! ## Cube core coordinate labels (src/cubio/cube_data/core.py) -/

/-- The `CubeDataCore` state the coordinate-label properties read:
the active format, the optional caller-supplied labels, and the
memoized `_shape`. Label vectors are modelled as rational lists. -/
structure CubeDataCore where
  fmt : CubeArrayFormat
  _xcoords : Option (List ℚ)
  _ycoords : Option (List ℚ)
  _zcoords : Option (List ℚ)
  _shape : Option CubeSize

/-- `np.arange(0, n)`: the zero-based index vector of length `n`. -/
def arangeQ (n : ℕ) : List ℚ :=
  (List.range n).map fun i => (i : ℚ)

/-- The `shape` property: the memoized `CubeSize` (or, when unset,
derived from the buffer — which raises when no buffer is assigned). -/
def CubeDataCore.shape (c : CubeDataCore) : Except String CubeSize :=
  match c._shape with
  | some s => .ok s
  | none => .error "Array is not set."

/-- The `array` setter for a rank-3 buffer: memoizes
`get_cube_size(value, self.fmt)` as `self._shape` (then relabels the
buffer, which does not alter the coordinate-label defaults). -/
def CubeDataCore.set_array (c : CubeDataCore) (value : Arr3 PyVal) :
    CubeDataCore :=
  { c with _shape := some (get_cube_size value c.fmt) }

/-- The `xcoords` property: the supplied labels, defaulting to
`np.arange(0, self.shape.ncolumns)`. -/
def CubeDataCore.xcoords (c : CubeDataCore) : Except String (List ℚ) :=
  match c._xcoords with
  | some l => .ok l
  | none => c.shape.map fun s => arangeQ s.ncolumns

/-- The `ycoords` property: the supplied labels, defaulting to
`np.arange(0, self.shape.ncolumns)` — the source reads `ncolumns`
here, not `nrows`. -/
def CubeDataCore.ycoords (c : CubeDataCore) : Except String (List ℚ) :=
  match c._ycoords with
  | some l => .ok l
  | none => c.shape.map fun s => arangeQ s.ncolumns

/-- The `zcoords` property: the supplied labels, defaulting to
`np.arange(0, self.shape.ncolumns)` — the source reads `ncolumns`
here, not `nbands`. -/
def CubeDataCore.zcoords (c : CubeDataCore) : Except String (List ℚ) :=
  match c._zcoords with
  | some l => .ok l
  | none => c.shape.map fun s => arangeQ s.ncolumns

/-! ## GCP models (src/cubio/geotools/models/gcp_model.py) -/

/-- `GroundControlPoint`: a pixel↔map correspondence; the UUID field is
modelled as a natural number tag. -/
structure GroundControlPoint where
  pixel_row : ℚ
  pixel_column : ℚ
  map_x : ℚ
  map_y : ℚ
  id : ℕ
  deriving Repr, DecidableEq

/-- `ImageOffset`: a sub-window descriptor (heights/widths and offsets
are `int` fields; the claims concern non-negative values, modelled ℕ). -/
structure ImageOffset where
  height : ℕ
  width : ℕ
  row : ℕ
  column : ℕ
  deriving Repr, DecidableEq

/-- A rank-2 image: shape plus total sample data. -/
structure Image2 (α : Type) where
  nr : ℕ
  nc : ℕ
  data : ℕ → ℕ → α

/-- Length of the Python slice `slice(a, b)` applied to an axis of
length `L`, for `0 ≤ a` and `b ≥ 0`: `max 0 (min b L - a)`, which ℕ
truncated subtraction gives directly.  (Python's negative-`stop`
wraparound never arises for the offsets considered, whose extents are
at least 1.) -/
def sliceLen (a b L : ℕ) : ℕ :=
  min b L - a

/-- `ImageOffset.crop_image`: errors when the base image is smaller
than `row+height` by `column+width`; otherwise indexes the base with
`row_slice = slice(row, row + height - 1)` and
`col_slice = slice(column, column + width - 1)`. -/
def ImageOffset.crop_image {α : Type} (o : ImageOffset)
    (base_image : Image2 α) : Except String (Image2 α) :=
  if base_image.nr < o.row + o.height ∨
      base_image.nc < o.column + o.width then
    .error "Input image is too small for the offset size."
  else
    .ok ⟨sliceLen o.row (o.row + o.height - 1) base_image.nr,
         sliceLen o.column (o.column + o.width - 1) base_image.nc,
         fun i j => base_image.data (o.row + i) (o.column + j)⟩

/-- `GCPGroup`: an image offset plus a list of ground control points. -/
structure GCPGroup where
  offset : ImageOffset
  gcp_list : List GroundControlPoint
  deriving Repr, DecidableEq

/-- `GCPGroup.add_gcp`: appends one point to `self.gcp_list`. -/
def GCPGroup.add_gcp (g : GCPGroup) (gcp : GroundControlPoint) : GCPGroup :=
  { g with gcp_list := g.gcp_list ++ [gcp] }

/-- `GCPGroup.__add__` observed through an explicit object heap
(addresses to groups, mirroring Python references).  `self` lives at
address `ia`, `value` at address `ib`; the body runs
`for i in value.gcp_list: self.add_gcp(i)` — a left fold of `add_gcp`
over `value`'s points that mutates the heap cell `ia` — and then
returns `self`, i.e. the reference `ia`.  (When `ia = ib` the Python
loop appends to the list it iterates and never terminates, so distinct
operands are assumed where this operation is reasoned about.) -/
def gcpGroupAddOp (heap : ℕ → GCPGroup) (ia ib : ℕ) :
    (ℕ → GCPGroup) × ℕ :=
  let a := heap ia
  let b := heap ib
  (Function.update heap ia (b.gcp_list.foldl GCPGroup.add_gcp a), ia)

/-! ## Geolocation backplane
(src/cubio/geotools/generate_geoloc_backplane.py)

`generate_latlong` builds a `scipy.spatial.Delaunay` triangulation over
the GCP (column, row) pixel locations and, per pixel `p`, evaluates
`bary = T[:2,:] @ (p - T[2])` followed by `bary ++ [1 - sum bary]`,
then dots the weights with the simplex vertices' (lat, lon) rows.
`Delaunay.transform` is external library data; per scipy's documented
semantics, for a 2-D simplex with vertices `v0 v1 v2` its first two
rows are the matrix inverse of `[v0 - v2 | v1 - v2]` and its last row
is `v2`.  The per-pixel computation is embedded below for one simplex,
with the inverse written in closed (adjugate) form. -/

/-- The barycentric weights `generate_latlong` computes for pixel `p`
in the simplex with vertices `v0, v1, v2` (pixel (column, row) pairs):
`b = T⁻¹ (p - v2)` with `T = [v0 - v2 | v1 - v2]`, and the last weight
is `1 - b0 - b1`. -/
def baryWeights (v0 v1 v2 p : ℚ × ℚ) : ℚ × ℚ × ℚ :=
  let a := v0.1 - v2.1
  let b := v1.1 - v2.1
  let c := v0.2 - v2.2
  let d := v1.2 - v2.2
  let dt := a * d - b * c
  let px := p.1 - v2.1
  let py := p.2 - v2.2
  let b0 := (d * px - b * py) / dt
  let b1 := (a * py - c * px) / dt
  (b0, b1, 1 - b0 - b1)

/-- The (latitude, longitude) value `generate_latlong` writes at pixel
`p` for a simplex with vertices at pixels `v0, v1, v2` carrying map
coordinates `m0, m1, m2`: the weight-by-weight dot product of
`baryWeights` with the vertices' (lat, lon) rows (the `np.sum(latlon *
bary[..., None], axis=1)` line). -/
def generate_latlong_at (v0 v1 v2 : ℚ × ℚ) (m0 m1 m2 : ℚ × ℚ)
    (p : ℚ × ℚ) : ℚ × ℚ :=
  let w := baryWeights v0 v1 v2 p
  (w.1 * m0.1 + w.2.1 * m1.1 + w.2.2 * m2.1,
   w.1 * m0.2 + w.2.1 * m1.2 + w.2.2 * m2.2)

/-! ## Helper lemmas -/

/-- Folding `add_gcp` over a list appends the list to `gcp_list` and
leaves the offset untouched. -/
theorem foldl_add_gcp (g : GCPGroup) (l : List GroundControlPoint) :
    l.foldl GCPGroup.add_gcp g = ⟨g.offset, g.gcp_list ++ l⟩ := by
  induction l generalizing g with
  | nil => simp
  | cons x xs ih =>
      rw [List.foldl_cons, ih]
      simp [GCPGroup.add_gcp]

/-! ## Claims -/

/-- C5: for every ordered pair of storage layouts (L1, L2) drawn from
{BIL, BIP, BSQ} and every rank-3 buffer, transposing from L1 to L2 and
then from L2 back to L1 yields the original buffer, element for
element (and shape for shape). -/
theorem claim_C5_transpose_roundtrip {α : Type} (L1 L2 : CubeArrayFormat)
    (buf : Arr3 α) :
    transpose_cube L2 L1.toDst (transpose_cube L1 L2.toDst buf) = buf := by
  cases L1 <;> cases L2 <;>
    exact Arr3.ext_thm rfl rfl rfl fun i j k => rfl

/-- C9: mask accumulation is monotone.  When both component masks are
set, `add_to_xymask` and `add_to_zmask` succeed and every cell the old
mask excluded stays excluded in the result. -/
theorem claim_C9_mask_accumulation_monotone (m : CubeMask)
    (xy : ℕ → ℕ → Bool) (z : ℕ → Bool) (dxy : ℕ → ℕ → Bool)
    (dz : ℕ → Bool) (hxy : m._xymask = some xy) (hz : m._zmask = some z) :
    ∃ m1 xy1 m2 z2,
      m.add_to_xymask dxy = .ok m1 ∧ m1._xymask = some xy1 ∧
      (∀ i j, xy i j = true → xy1 i j = true) ∧
      m.add_to_zmask dz = .ok m2 ∧ m2._zmask = some z2 ∧
      (∀ k, z k = true → z2 k = true) := by
  refine ⟨{ m with _xymask := some fun i j => xy i j || dxy i j },
    (fun i j => xy i j || dxy i j),
    { m with _zmask := some fun k => z k || dz k },
    (fun k => z k || dz k), ?_, rfl, ?_, ?_, rfl, ?_⟩
  · rw [CubeMask.add_to_xymask, hxy]
  · intro i j h
    simp [h]
  · rw [CubeMask.add_to_zmask, hz]
  · intro k h
    simp [h]

/-- Witness for C9: a concrete 2×2×2 mask excluding cell (0,0) and band
1; after accumulating a fresh delta both stay excluded. -/
theorem claim_C9_witness :
    ∃ m1 xy1 m2 z2,
      (CubeMask.mk ⟨2, 2, 2⟩ (some fun i j => decide (i = 0 ∧ j = 0))
          (some fun k => decide (k = 1))).add_to_xymask
          (fun i _ => decide (i = 1)) = .ok m1 ∧
      m1._xymask = some xy1 ∧
      (∀ i j, (fun i j => decide (i = 0 ∧ j = 0)) i j = true →
        xy1 i j = true) ∧
      (CubeMask.mk ⟨2, 2, 2⟩ (some fun i j => decide (i = 0 ∧ j = 0))
          (some fun k => decide (k = 1))).add_to_zmask
          (fun k => decide (k = 0)) = .ok m2 ∧
      m2._zmask = some z2 ∧
      (∀ k, (fun k => decide (k = 1)) k = true → z2 k = true) :=
  claim_C9_mask_accumulation_monotone _ _ _ _ _ rfl rfl

/-- C10: `GCPGroup.__add__` mutates its left operand in place: after
`a + b` the heap cell of `a` holds its original point list followed by
all of `b`'s points with the offset unchanged, every other object is
untouched, and the value returned is the reference to `a` itself. -/
theorem claim_C10_gcpgroup_add_mutates (heap : ℕ → GCPGroup) (ia ib : ℕ)
    (hne : ia ≠ ib) :
    (gcpGroupAddOp heap ia ib).2 = ia ∧
    (gcpGroupAddOp heap ia ib).1 ia =
      ⟨(heap ia).offset, (heap ia).gcp_list ++ (heap ib).gcp_list⟩ ∧
    (∀ j, j ≠ ia → (gcpGroupAddOp heap ia ib).1 j = heap j) := by
  refine ⟨rfl, ?_, ?_⟩
  · show Function.update heap ia _ ia = _
    rw [Function.update_same, foldl_add_gcp]
  · intro j hj
    show Function.update heap ia _ j = heap j
    rw [Function.update_noteq hj]

/-- Witness for C10: two concrete one-point groups at heap addresses 0
and 1; `a + b` returns address 0, whose group now holds both points in
order with `a`'s offset, and address 1 is untouched. -/
theorem claim_C10_witness :
    (gcpGroupAddOp
        (fun n => if n = 0 then ⟨⟨3, 4, 1, 2⟩, [⟨0, 0, 10, 20, 7⟩]⟩
          else ⟨⟨5, 6, 0, 0⟩, [⟨1, 1, 30, 40, 8⟩]⟩) 0 1).2 = 0 ∧
    (gcpGroupAddOp
        (fun n => if n = 0 then ⟨⟨3, 4, 1, 2⟩, [⟨0, 0, 10, 20, 7⟩]⟩
          else ⟨⟨5, 6, 0, 0⟩, [⟨1, 1, 30, 40, 8⟩]⟩) 0 1).1 0 =
      ⟨⟨3, 4, 1, 2⟩, [⟨0, 0, 10, 20, 7⟩, ⟨1, 1, 30, 40, 8⟩]⟩ ∧
    (∀ j, j ≠ 0 →
      (gcpGroupAddOp
          (fun n => if n = 0 then ⟨⟨3, 4, 1, 2⟩, [⟨0, 0, 10, 20, 7⟩]⟩
            else ⟨⟨5, 6, 0, 0⟩, [⟨1, 1, 30, 40, 8⟩]⟩) 0 1).1 j =
        (fun n => if n = 0 then ⟨⟨3, 4, 1, 2⟩, [⟨0, 0, 10, 20, 7⟩]⟩
          else ⟨⟨5, 6, 0, 0⟩, [⟨1, 1, 30, 40, 8⟩]⟩) j) :=
  claim_C10_gcpgroup_add_mutates _ 0 1 (by decide)

/-- C6: for a rotation-free geotransform with nonzero resolutions,
`map_to_pixel` composed with `pixel_to_map` (default `"hemi"`
convention) is the identity on pixel points with non-negative
coordinates — exact over ℚ, hence within any floating tolerance. -/
theorem claim_C6_roundtrip_identity (g : GeotransformModel)
    (hrr : g.row_rotation = 0) (hcr : g.col_rotation = 0)
    (hx : g.xres ≠ 0) (hy : g.yres ≠ 0) (xpixel ypixel : ℚ)
    (hxp : 0 ≤ xpixel) (hyp : 0 ≤ ypixel) :
    g.map_to_pixel (g.pixel_to_map xpixel ypixel .hemi).x
      (g.pixel_to_map xpixel ypixel .hemi).y = .ok ⟨xpixel, ypixel⟩ := by
  have hxm : (g.pixel_to_map xpixel ypixel .hemi).x =
      g.upperleft.x + xpixel * g.xres := by
    simp [GeotransformModel.pixel_to_map, hrr]
  have hym : (g.pixel_to_map xpixel ypixel .hemi).y =
      g.upperleft.y + ypixel * g.yres := by
    simp [GeotransformModel.pixel_to_map, hcr]
  rw [GeotransformModel.map_to_pixel, hxm, hym]
  simp only [hrr, hcr, zero_mul, mul_zero, zero_div, sub_zero, add_zero,
    zero_add]
  rw [if_neg hx, if_neg (mul_ne_zero hx hy), if_neg hy]
  have ex : (g.yres * (g.upperleft.x + xpixel * g.xres) -
      g.upperleft.x * g.yres) / (g.xres * g.yres) = xpixel := by
    field_simp
    ring
  have ey : (g.xres * (g.upperleft.y + ypixel * g.yres) -
      g.upperleft.y * g.xres) / (g.xres * g.yres) = ypixel := by
    field_simp
    ring
  rw [ex, ey, if_neg (not_lt.mpr hxp), if_neg (not_lt.mpr hyp)]

/-- Witness for C6: the geotransform with upper left (1, 2),
xres = 2, yres = -1 and no rotation recovers pixel (3, 4) exactly. -/
theorem claim_C6_witness :
    (GeotransformModel.mk ⟨1, 2⟩ 2 0 (-1) 0).map_to_pixel
      ((GeotransformModel.mk ⟨1, 2⟩ 2 0 (-1) 0).pixel_to_map 3 4 .hemi).x
      ((GeotransformModel.mk ⟨1, 2⟩ 2 0 (-1) 0).pixel_to_map 3 4 .hemi).y
      = .ok ⟨3, 4⟩ :=
  claim_C6_roundtrip_identity _ rfl rfl (by norm_num) (by norm_num) 3 4
    (by norm_num) (by norm_num)

/-- A rotated geotransform with zero x-resolution but nonzero
determinant, refuting C8 as stated. -/
def rotatedGeotransform : GeotransformModel :=
  ⟨⟨0, 0⟩, 0, 1, 0, 1⟩

/-- Counterexample to C8: `rotatedGeotransform` has nonzero determinant
and maps pixel (5, 5) to map point (5, 5) — so that map point lies
inside the modeled raster with non-negative pixel coordinates — yet
`map_to_pixel` fails there with a `ZeroDivisionError` (the body divides
by `xres = 0`), which is neither a `GeographicBoundsError` nor a normal
return. -/
theorem claim_C8_counterexample :
    rotatedGeotransform.scaler ≠ 0 ∧
    rotatedGeotransform.pixel_to_map 5 5 .hemi = ⟨5, 5⟩ ∧
    rotatedGeotransform.map_to_pixel 5 5 = .error .zeroDivision := by
  refine ⟨?_, ?_, ?_⟩
  · rw [GeotransformModel.scaler]
    norm_num [rotatedGeotransform]
  · rw [GeotransformModel.pixel_to_map]
    norm_num [rotatedGeotransform]
  · rw [GeotransformModel.map_to_pixel]
    norm_num [rotatedGeotransform]

/-- C8 (amended): for a geotransform with nonzero determinant **and
nonzero x- and y-resolutions**, `map_to_pixel` raises a
`GeographicBoundsError` carrying the offending map coordinate and the
violated bound exactly when a computed pixel coordinate is negative
(the x check first), and returns the computed pixel point normally
otherwise. -/
theorem claim_C8_domain_error (g : GeotransformModel) (hx : g.xres ≠ 0)
    (hy : g.yres ≠ 0) (hs : g.scaler ≠ 0) (xmap ymap : ℚ) :
    g.map_to_pixel xmap ymap =
      if g.xpixelOf xmap ymap < 0 then
        .error (.geographicBoundsX xmap g.upperleft.x)
      else if g.ypixelOf xmap ymap < 0 then
        .error (.geographicBoundsY ymap g.upperleft.y)
      else .ok ⟨g.xpixelOf xmap ymap, g.ypixelOf xmap ymap⟩ := by
  rw [GeotransformModel.scaler] at hs
  rw [GeotransformModel.map_to_pixel, GeotransformModel.xpixelOf,
    GeotransformModel.ypixelOf, GeotransformModel.scaler]
  rw [if_neg hx, if_neg hs, if_neg hy]

/-- Witness for C8: for the null-like transform with upper left (10, 0),
xres = 1, yres = -1, the map point (3, 0) lies left of x = 10, and
`map_to_pixel` returns the domain error carrying the coordinate 3 and
the bound 10. -/
theorem claim_C8_witness :
    (GeotransformModel.mk ⟨10, 0⟩ 1 0 (-1) 0).map_to_pixel 3 0 =
      .error (.geographicBoundsX 3 10) := by
  have h := claim_C8_domain_error (GeotransformModel.mk ⟨10, 0⟩ 1 0 (-1) 0)
    (by norm_num) (by norm_num)
    (by rw [GeotransformModel.scaler]; norm_num) 3 0
  rw [h, if_pos]
  rw [GeotransformModel.xpixelOf, GeotransformModel.scaler]
  norm_num

/-- A degenerate all-zero geotransform: its determinant is zero, yet
pydantic construction accepts it, refuting C4 as stated. -/
def zeroDetGeotransform : GeotransformModel :=
  ⟨⟨0, 0⟩, 0, 0, 0, 0⟩

/-- Counterexample to C4: constructing a `GeotransformModel` whose
determinant is zero is not rejected — `construct` (pydantic validation,
which checks only field types) succeeds on the all-zero parameters —
and `map_to_pixel` on the resulting model reaches its division, which
Python aborts with a `ZeroDivisionError`, not a validation rejection
issued before the division. -/
theorem claim_C4_counterexample :
    GeotransformModel.construct 0 0 0 0 0 0 = .ok zeroDetGeotransform ∧
    zeroDetGeotransform.scaler = 0 ∧
    zeroDetGeotransform.map_to_pixel 1 1 = .error .zeroDivision := by
  refine ⟨rfl, ?_, ?_⟩
  · rw [GeotransformModel.scaler]
    norm_num [zeroDetGeotransform]
  · rw [GeotransformModel.map_to_pixel]
    norm_num [zeroDetGeotransform]

/-- C4 (amended): no determinant invariant is enforced anywhere:
construction succeeds for every parameter combination, zero determinant
included, and calling `map_to_pixel` on a zero-determinant model
executes the division whose divisor is zero, so the call dies with a
runtime `ZeroDivisionError` instead of being rejected up front. -/
theorem claim_C4_no_determinant_validation (ulx uly xr rr yr cr : ℚ) :
    GeotransformModel.construct ulx uly xr rr yr cr =
      .ok ⟨⟨ulx, uly⟩, xr, rr, yr, cr⟩ ∧
    (∀ xmap ymap : ℚ,
      (GeotransformModel.mk ⟨ulx, uly⟩ xr rr yr cr).scaler = 0 →
      (GeotransformModel.mk ⟨ulx, uly⟩ xr rr yr cr).map_to_pixel xmap ymap =
        .error .zeroDivision) := by
  refine ⟨rfl, fun xmap ymap hs => ?_⟩
  rw [GeotransformModel.scaler] at hs
  rw [GeotransformModel.map_to_pixel]
  by_cases hx : xr = 0
  · rw [if_pos hx]
  · rw [if_neg hx, if_pos hs]

/-- Witness for C4: the all-zero parameters construct successfully,
their determinant is zero, and `map_to_pixel` at (1, 1) dies with the
division-by-zero error. -/
theorem claim_C4_witness :
    GeotransformModel.construct 0 0 0 1 0 0 =
      .ok ⟨⟨0, 0⟩, 0, 1, 0, 0⟩ ∧
    (GeotransformModel.mk ⟨0, 0⟩ 0 1 0 0).map_to_pixel 2 3 =
      .error .zeroDivision := by
  have h := claim_C4_no_determinant_validation 0 0 0 1 0 0
  exact ⟨h.1, h.2 2 3 (by rw [GeotransformModel.scaler]; norm_num)⟩

/-- Evaluates the masked `array` read at one (row, column, band)
cell. -/
def cubeReadAt (c : CubeDataState) (y x z : ℕ) : Option PyVal :=
  c.array.toOption.map fun a => a.data y x z

/-- Whether the accumulated mask excludes cell (y, x, z): the spatial
grid excludes (y, x) or the spectral vector excludes band z. -/
def maskExcludes (c : CubeDataState) (y x z : ℕ) : Bool :=
  match c.mask with
  | .error _ => false
  | .ok m =>
      match m._xymask, m._zmask with
      | some xy, some zm => xy y x || zm z
      | _, _ => false

/-- A concrete 1×1×1 cube holding sample 5, nodata −999, and a mask
excluding its only spatial cell. -/
def nanFillCube : CubeDataState :=
  { _array := some ⟨⟨1, 1, 1⟩, fun _ _ _ => .num 5⟩,
    nodata := .num (-999),
    _mask := some ⟨⟨1, 1, 1⟩, some fun _ _ => true, some fun _ => false⟩ }

/-- Counterexample to C1: in `nanFillCube` the cell (0, 0, 0) is
excluded by the spatial mask, and reading `array` yields `np.nan`
there — not the cube's declared nodata sentinel −999. -/
theorem claim_C1_counterexample :
    maskExcludes nanFillCube 0 0 0 = true ∧
    cubeReadAt nanFillCube 0 0 0 = some PyVal.nan ∧
    nanFillCube.nodata = PyVal.num (-999) ∧
    PyVal.nan ≠ PyVal.num (-999) := by
  refine ⟨rfl, rfl, rfl, ?_⟩
  intro h
  exact PyVal.noConfusion h

/-- C1 (amended): for every cube with an assigned buffer and any
accumulated mask, reading `array` preserves the buffer's shape and
replaces every cell excluded by the spatial or spectral mask with
`np.nan` (regardless of the declared nodata sentinel), leaving every
non-excluded cell at its original sample. -/
theorem claim_C1_masked_read (c : CubeDataState) (a : LabeledCube)
    (m : CubeMask) (xy : ℕ → ℕ → Bool) (z : ℕ → Bool)
    (ha : c._array = some a) (hm : c._mask = some m)
    (hxy : m._xymask = some xy) (hz : m._zmask = some z) :
    ∃ out, c.array = .ok out ∧ out.shape = a.shape ∧
      ∀ y x k,
        ((xy y x = true ∨ z k = true) → out.data y x k = PyVal.nan) ∧
        (xy y x = false → z k = false → out.data y x k = a.data y x k) := by
  have hmask : c.mask = .ok m := by
    rw [CubeDataState.mask, hm]
  refine ⟨⟨a.shape, fun yi xi zi =>
    if !xy yi xi && !z zi then a.data yi xi zi else PyVal.nan⟩, ?_, rfl, ?_⟩
  · simp only [CubeDataState.array, ha, hmask, hxy, hz]
  · intro y x k
    constructor
    · rintro (h | h) <;> simp [h]
    · intro h1 h2
      simp [h1, h2]

/-- Witness for C1: reading `nanFillCube.array` preserves the 1×1×1
shape, fills the excluded cell (0,0,0) with `np.nan`, and a sibling
cube whose mask is fully transparent returns the original sample. -/
theorem claim_C1_witness :
    ∃ out, nanFillCube.array = .ok out ∧ out.shape = ⟨1, 1, 1⟩ ∧
      out.data 0 0 0 = PyVal.nan := by
  obtain ⟨out, h1, h2, h3⟩ := claim_C1_masked_read nanFillCube
    ⟨⟨1, 1, 1⟩, fun _ _ _ => .num 5⟩
    ⟨⟨1, 1, 1⟩, some fun _ _ => true, some fun _ => false⟩
    (fun _ _ => true) (fun _ => false) rfl rfl rfl rfl
  exact ⟨out, h1, h2, (h3 0 0 0).1 (Or.inl rfl)⟩

/-- The offset of C2's failing input: a full-frame 2×2 window at the
origin. -/
def offset2x2 : ImageOffset :=
  ⟨2, 2, 0, 0⟩

/-- Shape of a crop, for evaluating `crop_image` results. -/
def cropShape {α : Type} (r : Except String (Image2 α)) :
    Except String (ℕ × ℕ) :=
  r.map fun im => (im.nr, im.nc)

/-- C2 (code bug, evaluated): cropping a 2×2 base image with offset
(row 0, column 0, height 2, width 2) passes the size check but returns
a 1×1 crop — `row_slice`/`col_slice` are built as
`slice(row, row + height - 1)`, dropping the final row and column of
the half-open window `[row, row+height) × [col, col+width)` the claim
(and the size check) describe. -/
theorem claim_C2_crop_offbyone :
    cropShape (offset2x2.crop_image ⟨2, 2, fun i j => (2 * i + j : ℚ)⟩) =
      .ok (1, 1) ∧ (1, 1) ≠ ((2 : ℕ), (2 : ℕ)) := by
  exact ⟨rfl, by decide⟩

/-- The core of C3's failing input: a cube constructed without labels
in BIP order, assigned a 2×3×4 buffer (2 rows, 3 columns, 4 bands). -/
def bipCore234 : CubeDataCore :=
  CubeDataCore.set_array ⟨.BIP, none, none, none, none⟩
    ⟨2, 3, 4, fun _ _ _ => PyVal.num 0⟩

/-- C3 (code bug, evaluated): after assigning the 2×3×4 BIP buffer the
derived shape is (2 rows, 3 columns, 4 bands), but the default y and z
coordinate labels both have length 3 = ncolumns — the `ycoords` and
`zcoords` properties read `self.shape.ncolumns` where the claim (and
the labelled-array construction that consumes them) require `nrows`
and `nbands`. -/
theorem claim_C3_default_label_lengths :
    bipCore234.shape = .ok ⟨2, 3, 4⟩ ∧
    bipCore234.xcoords.map List.length = .ok 3 ∧
    bipCore234.ycoords.map List.length = .ok 3 ∧
    bipCore234.zcoords.map List.length = .ok 3 ∧
    (3 : ℕ) ≠ 2 ∧ (3 : ℕ) ≠ 4 := by
  exact ⟨rfl, rfl, rfl, rfl, by decide, by decide⟩

/-- The weights `generate_latlong` computes through the Delaunay
transform are the (unique) barycentric coordinates: whenever
`(w0, w1, w2)` is an affine combination of the simplex vertices
producing `p` with weights summing to 1, and the vertices are not
collinear, `baryWeights` returns exactly `(w0, w1, w2)`. -/
theorem baryWeights_eq (v0 v1 v2 p : ℚ × ℚ) (w0 w1 w2 : ℚ)
    (hdt : (v0.1 - v2.1) * (v1.2 - v2.2) -
      (v1.1 - v2.1) * (v0.2 - v2.2) ≠ 0)
    (hsum : w0 + w1 + w2 = 1)
    (hx : w0 * v0.1 + w1 * v1.1 + w2 * v2.1 = p.1)
    (hy : w0 * v0.2 + w1 * v1.2 + w2 * v2.2 = p.2) :
    baryWeights v0 v1 v2 p = (w0, w1, w2) := by
  have hw2 : w2 = 1 - w0 - w1 := by linarith
  subst hw2
  have h0 : ((v1.2 - v2.2) * (p.1 - v2.1) -
      (v1.1 - v2.1) * (p.2 - v2.2)) /
      ((v0.1 - v2.1) * (v1.2 - v2.2) -
        (v1.1 - v2.1) * (v0.2 - v2.2)) = w0 := by
    rw [div_eq_iff hdt, ← hx, ← hy]
    ring
  have h1 : ((v0.1 - v2.1) * (p.2 - v2.2) -
      (v0.2 - v2.2) * (p.1 - v2.1)) /
      ((v0.1 - v2.1) * (v1.2 - v2.2) -
        (v1.1 - v2.1) * (v0.2 - v2.2)) = w1 := by
    rw [div_eq_iff hdt, ← hx, ← hy]
    ring
  simp only [baryWeights]
  rw [h0, h1]

/-- C7: at the centroid of the GCP triangle with pixel vertices
(0,0), (0,10), (10,0) the computed weights are all 1/3 and the
generated value is the unweighted average of the three GCPs' map
coordinates; in general, for every non-degenerate triangle and every
barycentric representation `p = w0·v0 + w1·v1 + w2·v2` with
`w0+w1+w2 = 1`, the generated (latitude, longitude) is the
barycentric-weighted sum of the triangle's map coordinates. -/
theorem claim_C7_barycentric_interpolation (m0 m1 m2 : ℚ × ℚ) :
    (baryWeights (0, 0) (0, 10) (10, 0) (10/3, 10/3) =
        (1/3, 1/3, 1/3) ∧
      generate_latlong_at (0, 0) (0, 10) (10, 0) m0 m1 m2 (10/3, 10/3) =
        ((m0.1 + m1.1 + m2.1) / 3, (m0.2 + m1.2 + m2.2) / 3)) ∧
    (∀ v0 v1 v2 p : ℚ × ℚ, ∀ w0 w1 w2 : ℚ,
      (v0.1 - v2.1) * (v1.2 - v2.2) -
        (v1.1 - v2.1) * (v0.2 - v2.2) ≠ 0 →
      w0 + w1 + w2 = 1 →
      w0 * v0.1 + w1 * v1.1 + w2 * v2.1 = p.1 →
      w0 * v0.2 + w1 * v1.2 + w2 * v2.2 = p.2 →
      generate_latlong_at v0 v1 v2 m0 m1 m2 p =
        (w0 * m0.1 + w1 * m1.1 + w2 * m2.1,
         w0 * m0.2 + w1 * m1.2 + w2 * m2.2)) := by
  have hcent : baryWeights (0, 0) (0, 10) (10, 0) (10/3, 10/3) =
      ((1 : ℚ)/3, (1 : ℚ)/3, (1 : ℚ)/3) := by
    apply baryWeights_eq <;> norm_num
  refine ⟨⟨hcent, ?_⟩, ?_⟩
  · simp only [generate_latlong_at, hcent]
    rw [Prod.mk.injEq]
    constructor <;> ring
  · intro v0 v1 v2 p w0 w1 w2 hdt hsum hx hy
    simp only [generate_latlong_at, baryWeights_eq v0 v1 v2 p w0 w1 w2
      hdt hsum hx hy]

/-- Witness for C7: on the triangle (0,0), (0,10), (10,0) carrying map
coordinates (1,2), (3,4), (5,6), the edge midpoint pixel (0,5) — the
barycentric combination ½·v0 + ½·v1 — interpolates to (2, 3). -/
theorem claim_C7_witness :
    generate_latlong_at (0, 0) (0, 10) (10, 0) (1, 2) (3, 4) (5, 6)
      (0, 5) = (2, 3) := by
  have h := (claim_C7_barycentric_interpolation (1, 2) (3, 4) (5, 6)).2
    (0, 0) (0, 10) (10, 0) (0, 5) (1/2) (1/2) 0 (by norm_num)
    (by norm_num) (by norm_num) (by norm_num)
  rw [h]
  norm_num

end Cubio
